import Mathlib

/-!
# Smart-Invoice: verification of the invoice lifecycle and aggregation engine

Shallow embedding of the server core of the Smart-Invoice repository
(`server/storage.ts` — class `FirestoreStorage`, `server/routes.ts`, and the
client-side totals computation in `client/src/pages/create-invoice.tsx`).

Modelling conventions:
* Decimal strings (`subtotal`, `taxRate`, `total`, `quantity`, `rate`, …) are
  represented by their exact rational value (`ℚ`); JavaScript's
  `Number.prototype.toFixed(2)` is modelled by rounding to cents
  (`round2` / `formatFixed2`).  All concrete values appearing in the claims
  have at most two fractional digits, where double arithmetic is exact.
* Timestamps are naturals (milliseconds since epoch); `new Date()` results are
  passed in as explicit `now` parameters.
* The Firestore document store is a record of lists.  A query without
  `orderBy` enumerates documents in document-id order (Firestore's default
  `__name__` ordering), modelled by an insertion sort on the `id` field.
  Crucially, the code writes invoice line items to the *subcollection*
  `invoices/{id}/items` (`createInvoice`, `replaceInvoiceItems`, read back by
  `getInvoice`), while `deleteInvoice` and `getRecentInvoices` address a
  *top-level* collection `invoiceItems`; the state therefore keeps the two
  stores separate (`subItems` vs `topItems`), exactly as the code does.
-/

namespace SmartInvoice

/-- A document of the `clients` collection (`shared/schema.ts`, `Client`).
Fields not used by any operation under verification (address, phone, …)
are omitted. -/
structure Client where
  id : String
  userId : String
  name : String
  email : String
  createdAt : Nat
  deriving DecidableEq, Repr

/-- A document of the `invoices` collection (`shared/schema.ts`, `Invoice`). -/
structure Invoice where
  id : String
  userId : String
  clientId : String
  invoiceNumber : String
  status : String
  currency : String
  subtotal : ℚ
  taxRate : ℚ
  taxAmount : ℚ
  total : ℚ
  notes : Option String
  paidAt : Option Nat
  createdAt : Nat
  updatedAt : Nat
  deriving DecidableEq, Repr

/-- An invoice line-item document (`shared/schema.ts`, `InvoiceItem`).
`invoiceId` is the parent invoice; for subcollection documents it is the
field the code spreads into the document, for `invoiceItems` documents it is
the query key used by `deleteInvoice`/`getRecentInvoices`. -/
structure InvoiceItem where
  invoiceId : String
  description : String
  quantity : ℚ
  rate : ℚ
  amount : ℚ
  createdAt : Nat
  deriving DecidableEq, Repr

/-- `InsertInvoice` (`shared/schema.ts`): the draft the caller passes to
`createInvoice`.  `status`/`paidAt`/`notes` are optional exactly where the
code applies `?? fallback`. -/
structure InsertInvoice where
  userId : String
  clientId : String
  invoiceNumber : String
  status : Option String
  currency : String
  subtotal : ℚ
  taxRate : ℚ
  taxAmount : ℚ
  total : ℚ
  notes : Option String
  paidAt : Option Nat
  deriving DecidableEq, Repr

/-- `InsertInvoiceItem` (`shared/schema.ts`). -/
structure InsertInvoiceItem where
  description : String
  quantity : ℚ
  rate : ℚ
  amount : ℚ
  deriving DecidableEq, Repr

/-- The Firestore state visible to `FirestoreStorage`. `subItems` holds the
documents of the subcollections `invoices/{id}/items`; `topItems` holds the
documents of the top-level `invoiceItems` collection. -/
structure DB where
  clients : List Client
  invoices : List Invoice
  subItems : List InvoiceItem
  topItems : List InvoiceItem
  deriving DecidableEq, Repr

/-- `InvoiceWithDetails` (`shared/schema.ts`): invoice joined with its client
(`null` when the client document is missing, as in `getInvoicesByUserId` and
`getInvoice`) and an item list. -/
structure InvoiceWithDetails where
  invoice : Invoice
  client : Option Client
  items : List InvoiceItem
  deriving DecidableEq, Repr

/-! ## Decimal formatting (`Number.prototype.toFixed(2)`) -/

/-- The integer number of cents obtained by rounding a decimal value to two
fractional digits, as `toFixed(2)` does (round half away from zero; all
values reached in this development are non-negative, where this is
`⌊100q + 1/2⌋`). -/
def round2cents (q : ℚ) : ℤ := ⌊q * 100 + 1 / 2⌋

/-- Rounding a decimal value to two fractional digits. -/
def round2 (q : ℚ) : ℚ := (round2cents q : ℚ) / 100

/-- Renders a natural below 100 with two digits. -/
def pad2 (n : Nat) : String := if n < 10 then "0" ++ toString n else toString n

/-- `q.toFixed(2)`: the decimal string with exactly two fractional digits. -/
def formatFixed2 (q : ℚ) : String :=
  let c := round2cents q
  let sign := if c < 0 then "-" else ""
  let a := c.natAbs
  sign ++ toString (a / 100) ++ "." ++ pad2 (a % 100)

/-! ## Generic list machinery: document-order enumeration -/

/-- Inserts an element into a list sorted by `le` (used to model the order in
which a Firestore query enumerates its result set). -/
def insertOrd (le : α → α → Bool) (a : α) : List α → List α
  | [] => [a]
  | b :: l => if le a b then a :: b :: l else b :: insertOrd le a l

/-- Insertion sort by `le`. -/
def sortOrd (le : α → α → Bool) : List α → List α
  | [] => []
  | a :: l => insertOrd le a (sortOrd le l)

/-- Lexicographic strict order on character lists by code point. -/
def strLtChars : List Char → List Char → Bool
  | [], [] => false
  | [], _ :: _ => true
  | _ :: _, [] => false
  | a :: as, b :: bs =>
    if a.toNat < b.toNat then true
    else if b.toNat < a.toNat then false
    else strLtChars as bs

/-- Lexicographic order on strings (total: `a ≤ b ↔ ¬ b < a`). -/
def strLe (a b : String) : Bool := !(strLtChars b.data a.data)

/-- Default Firestore enumeration order of a query without `orderBy`:
ascending document id (`__name__`). -/
def idOrder (a b : Invoice) : Bool := strLe a.id b.id

/-- `orderBy("createdAt", "desc")` of `getRecentInvoices`. -/
def createdDescOrder (a b : Invoice) : Bool := decide (b.createdAt ≤ a.createdAt)

/-! ## `FirestoreStorage` operations (`server/storage.ts`) -/

/-- `getClient(id)`: fetch a client document by id. -/
def getClient (db : DB) (id : String) : Option Client :=
  db.clients.find? (fun c => c.id == id)

/-- `deleteClient(id)` (storage.ts lines 209–211): deletes **only** the client
document — no cascade of the client's invoices or their items. -/
def deleteClient (db : DB) (id : String) : DB :=
  { db with clients := db.clients.filter (fun c => c.id != id) }

/-- Fetch of the raw invoice document `invoices/{id}`. -/
def getInvoiceDoc (db : DB) (id : String) : Option Invoice :=
  db.invoices.find? (fun i => i.id == id)

/-- The documents of the subcollection `invoices/{id}/items`. -/
def itemsOfInvoice (db : DB) (id : String) : List InvoiceItem :=
  db.subItems.filter (fun it => it.invoiceId == id)

/-- The documents of the top-level `invoiceItems` collection with a given
`invoiceId` field. -/
def topItemsOfInvoice (db : DB) (id : String) : List InvoiceItem :=
  db.topItems.filter (fun it => it.invoiceId == id)

/-- `getInvoice(id)` (storage.ts lines 260–308): the invoice document joined
with its client (null when missing) and the items of the subcollection
`invoices/{id}/items`. -/
def getInvoice (db : DB) (id : String) : Option InvoiceWithDetails :=
  match getInvoiceDoc db id with
  | none => none
  | some inv => some ⟨inv, getClient db inv.clientId, itemsOfInvoice db id⟩

/-- The invoice document `createInvoice` writes (storage.ts lines 317–326):
the draft's fields verbatim, fresh id/timestamps, with the `??` defaults of
the code. -/
def mkInvoiceDoc (draft : InsertInvoice) (now : Nat) (newId : String) : Invoice :=
  { id := newId
    userId := draft.userId
    clientId := draft.clientId
    invoiceNumber := draft.invoiceNumber
    status := draft.status.getD "pending"
    currency := draft.currency
    subtotal := draft.subtotal
    taxRate := draft.taxRate
    taxAmount := draft.taxAmount
    total := draft.total
    notes := draft.notes
    paidAt := draft.paidAt
    createdAt := now
    updatedAt := now }

/-- The subcollection document written for one line item: the item spread
plus `invoiceId` (storage.ts lines 333–339); `createdAt` is the document
create time (read back via `doc.createTime` in `getInvoice`). -/
def attachItem (newId : String) (now : Nat) (it : InsertInvoiceItem) : InvoiceItem :=
  { invoiceId := newId
    description := it.description
    quantity := it.quantity
    rate := it.rate
    amount := it.amount
    createdAt := now }

/-- The state after `await invoiceRef.set(invoiceData)` (storage.ts line 329)
but **before** the item batch commit.  When the batch commit on line 341
rejects, the surrounding code has no catch and no compensating delete, so
this is also the state the error leaves behind. -/
def createInvoiceInvoiceWrite (db : DB) (draft : InsertInvoice) (now : Nat)
    (newId : String) : DB :=
  { db with invoices := mkInvoiceDoc draft now newId :: db.invoices }

/-- `createInvoice(insertInvoice, items)` (storage.ts lines 310–358), success
path: write the invoice document, then commit the item batch into the
subcollection `invoices/{id}/items`.  No totals are computed or checked: the
draft's `subtotal`/`taxAmount`/`total` are persisted verbatim. -/
def createInvoice (db : DB) (draft : InsertInvoice) (items : List InsertInvoiceItem)
    (now : Nat) (newId : String) : DB :=
  let db1 := createInvoiceInvoiceWrite db draft now newId
  { db1 with subItems := db1.subItems ++ items.map (attachItem newId now) }

/-- `replaceInvoiceItems(invoiceId, items)` (storage.ts lines 392–415): one
batch deleting every document of `invoices/{id}/items` and writing the new
set; the parent invoice document is **not** touched (no recomputation of
`subtotal`/`taxAmount`/`total`). -/
def replaceInvoiceItems (db : DB) (invoiceId : String)
    (items : List InsertInvoiceItem) (now : Nat) : DB :=
  { db with subItems :=
      db.subItems.filter (fun it => it.invoiceId != invoiceId)
        ++ items.map (attachItem invoiceId now) }

/-- The allowed status values (storage.ts line 422). -/
def allowedStatuses : List String := ["pending", "paid", "overdue"]

/-- The `updateData` object of `updateInvoiceStatus` applied to a document
(storage.ts lines 430–437): new status, refreshed `updatedAt`, and — when the
new status is "paid" — `paidAt := now`, **unconditionally** (the code never
checks whether `paidAt` was already set). -/
def applyStatusUpdate (inv : Invoice) (status : String) (now : Nat) : Invoice :=
  { inv with
    status := status
    updatedAt := now
    paidAt := if status == "paid" then some now else inv.paidAt }

/-- A Firestore document `update`: replaces the stored document carrying the
given id. -/
def writeInvoiceDoc (db : DB) (id : String) (inv' : Invoice) : DB :=
  { db with invoices := db.invoices.map (fun i => if i.id == id then inv' else i) }

/-- `updateInvoiceStatus(id, status)` (storage.ts lines 417–457): validates
the status, applies the update payload (`applyStatusUpdate`), then re-reads
and returns the updated document.  A Firestore `update` on a missing
document rejects, modelled by the NOT_FOUND error. -/
def updateInvoiceStatus (db : DB) (id status : String) (now : Nat) :
    Except String (DB × Invoice) :=
  if status ∈ allowedStatuses then
    match getInvoiceDoc db id with
    | none => .error "NOT_FOUND"
    | some inv =>
      let db' := writeInvoiceDoc db id (applyStatusUpdate inv status now)
      match getInvoiceDoc db' id with
      | none => .error "Invoice not found after status update."
      | some j => .ok (db', j)
  else .error "Invalid invoice status"

/-- `deleteInvoice(id)` (storage.ts lines 459–479): one batch deleting the
invoice document and every document of the **top-level** `invoiceItems`
collection whose `invoiceId` matches — the subcollection
`invoices/{id}/items` (where `createInvoice` and `replaceInvoiceItems`
actually write the items) is never touched. -/
def deleteInvoice (db : DB) (id : String) : DB :=
  { db with
    invoices := db.invoices.filter (fun i => i.id != id)
    topItems := db.topItems.filter (fun it => it.invoiceId != id) }

/-- The status filter of `getInvoicesByUserId`: the extra `where` clause is
added whenever `filters?.status` is truthy (an absent or empty string filter
is falsy, modelled by `none`); there is no special handling of any sentinel
value. -/
def statusFilterMatches (f : Option String) (i : Invoice) : Bool :=
  match f with
  | none => true
  | some s => i.status == s

/-- `getInvoicesByUserId(userId, filters)` (storage.ts lines 215–258): the
invoices matching the `userId` (and optional `status`) equality clauses, in
the query's default document-id order, each joined with its client (null
when the client document is missing) and an **empty** item list (the code
pushes `items: []` and never loads the subcollection). -/
def getInvoicesByUserId (db : DB) (userId : String) (f : Option String) :
    List InvoiceWithDetails :=
  (sortOrd idOrder
      (db.invoices.filter (fun i => i.userId == userId && statusFilterMatches f i))).map
    (fun i => ⟨i, getClient db i.clientId, []⟩)

/-- An invoice of the recent-activity feed: unlike `InvoiceWithDetails`, the
client is present (invoices whose client document is missing are dropped). -/
structure RecentInvoice where
  invoice : Invoice
  client : Client
  items : List InvoiceItem
  deriving DecidableEq, Repr

/-- The `limit` most recent invoices of the tenant by `createdAt` descending:
the query `where("userId","==",userId).orderBy("createdAt","desc").limit(limit)`
of `getRecentInvoices` (storage.ts lines 564–569). -/
def recentCandidates (db : DB) (userId : String) (lim : Nat) : List Invoice :=
  (sortOrd createdDescOrder (db.invoices.filter (fun i => i.userId == userId))).take lim

/-- `getRecentInvoices(userId, limit)` (storage.ts lines 560–601): for each of
the `limit` most recent invoices, fetch the client document and the items of
the **top-level** `invoiceItems` collection; an invoice whose client document
does not exist is silently skipped (`if (client) { invoices.push(...) }`), so
the result may hold fewer than `limit` entries without any error. -/
def getRecentInvoices (db : DB) (userId : String) (lim : Nat) : List RecentInvoice :=
  (recentCandidates db userId lim).filterMap
    (fun i => (getClient db i.clientId).map
      (fun c => RecentInvoice.mk i c (topItemsOfInvoice db i.id)))

/-! ## Dashboard metrics (`getDashboardMetrics`, storage.ts lines 481–558) -/

/-- The accumulator of the `invoicesSnapshot.forEach` loop. -/
structure DashAcc where
  totalInvoices : Nat
  prevMonthInvoices : Nat
  pendingAmount : ℚ
  totalRevenue : ℚ
  prevMonthRevenue : ℚ
  deriving DecidableEq, Repr

/-- One iteration of the `forEach` loop over the tenant's invoices
(storage.ts lines 513–530): count every invoice; count (and, when paid, sum)
the ones created in the last calendar month; add a paid invoice's total to
revenue, else add a pending invoice's total to the pending amount (overdue
invoices contribute to neither sum). -/
def dashStep (startOfLastMonth endOfLastMonth : Nat) (acc : DashAcc)
    (inv : Invoice) : DashAcc :=
  let a1 := { acc with totalInvoices := acc.totalInvoices + 1 }
  let a2 :=
    if startOfLastMonth ≤ inv.createdAt ∧ inv.createdAt ≤ endOfLastMonth then
      { a1 with
        prevMonthInvoices := a1.prevMonthInvoices + 1
        prevMonthRevenue :=
          if inv.status == "paid" then a1.prevMonthRevenue + inv.total
          else a1.prevMonthRevenue }
    else a1
  if inv.status == "paid" then { a2 with totalRevenue := a2.totalRevenue + inv.total }
  else if inv.status == "pending" then
    { a2 with pendingAmount := a2.pendingAmount + inv.total }
  else a2

/-- The record `getDashboardMetrics` returns. -/
structure Metrics where
  totalInvoices : Nat
  prevMonthInvoices : Nat
  pendingAmount : String
  totalClients : Nat
  prevMonthClients : Nat
  totalRevenue : String
  prevMonthRevenue : String
  deriving DecidableEq, Repr

/-- `getDashboardMetrics(userId)` (storage.ts lines 481–558).  The two last-
calendar-month boundary instants are computed by `Date` arithmetic from the
current clock outside this model and passed in (the fields the claims are
about do not depend on them).  Money sums are accumulated with `parseFloat`
addition, modelled exactly on rationals, and formatted with `toFixed(2)`. -/
def getDashboardMetrics (db : DB) (userId : String)
    (startOfLastMonth endOfLastMonth : Nat) : Metrics :=
  let acc := (db.invoices.filter (fun i => i.userId == userId)).foldl
    (dashStep startOfLastMonth endOfLastMonth) ⟨0, 0, 0, 0, 0⟩
  let myClients := db.clients.filter (fun c => c.userId == userId)
  { totalInvoices := acc.totalInvoices
    prevMonthInvoices := acc.prevMonthInvoices
    pendingAmount := formatFixed2 acc.pendingAmount
    totalClients := myClients.length
    prevMonthClients := (myClients.filter
      (fun c => decide (startOfLastMonth ≤ c.createdAt) &&
        decide (c.createdAt ≤ endOfLastMonth))).length
    totalRevenue := formatFixed2 acc.totalRevenue
    prevMonthRevenue := formatFixed2 acc.prevMonthRevenue }

/-! ## API boundary (`server/routes.ts`) -/

/-- Outcome of a route handler as observable by the HTTP caller. -/
inductive ApiResponse where
  | ok (body : InvoiceWithDetails)
  | notFound (message : String)
  | serverError (message : String)
  deriving DecidableEq, Repr

/-- `GET /api/invoices/:id` (routes.ts lines 235–253), after the auth
middleware resolved the caller to `tenantId`: fetch the invoice and answer
404 "Invoice not found" both when no such invoice exists and when it belongs
to a different tenant (`!invoice || invoice.userId !== req.user.id`). -/
def getInvoiceByIdRoute (db : DB) (tenantId : String) (id : String) : ApiResponse :=
  match getInvoice db id with
  | none => .notFound "Invoice not found"
  | some d =>
    if d.invoice.userId == tenantId then .ok d
    else .notFound "Invoice not found"

/-! ## Client-side totals computation (`client/src/pages/create-invoice.tsx`)

The server persists the monetary fields of the draft verbatim; the invoice
totals are computed by the create-invoice form before submission. -/

/-- A row of the create-invoice form; `updateItem` keeps
`amount = calculateItemAmount(quantity, rate)` whenever quantity or rate are
edited. -/
structure FormItem where
  description : String
  quantity : ℚ
  rate : ℚ
  amount : ℚ
  deriving DecidableEq, Repr

/-- `calculateItemAmount(quantity, rate)` (create-invoice.tsx line 91). -/
def calculateItemAmount (quantity rate : ℚ) : ℚ := quantity * rate

/-- `calculateTotals()` (create-invoice.tsx lines 119–126):
`subtotal = Σ item.amount`, `taxAmount = subtotal * (taxRate/100)`,
`total = subtotal + taxAmount`. -/
def calculateTotals (items : List FormItem) (taxRateValue : ℚ) : ℚ × ℚ × ℚ :=
  let subtotal := items.foldl (fun s it => s + it.amount) 0
  let taxRate := taxRateValue / 100
  let taxAmount := subtotal * taxRate
  (subtotal, taxAmount, subtotal + taxAmount)

/-- The payload `handleSubmit` sends (create-invoice.tsx lines 149–166): the
computed totals and item fields each rendered with `toFixed(2)`. -/
def submitInvoiceDraft (userId clientId invoiceNumber currency : String)
    (taxRateValue : ℚ) (items : List FormItem) :
    InsertInvoice × List InsertInvoiceItem :=
  let t := calculateTotals items taxRateValue
  ({ userId := userId
     clientId := clientId
     invoiceNumber := invoiceNumber
     status := none
     currency := currency
     subtotal := round2 t.1
     taxRate := taxRateValue
     taxAmount := round2 t.2.1
     total := round2 t.2.2
     notes := none
     paidAt := none },
   items.map (fun it =>
     { description := it.description
       quantity := round2 it.quantity
       rate := round2 it.rate
       amount := round2 it.amount }))

/-! ## Shared lemmas -/

/-- Evaluation helper for `formatFixed2` once the cent value is known. -/
lemma formatFixed2_eq (q : ℚ) (c : ℤ) (h : round2cents q = c) :
    formatFixed2 q =
      (if c < 0 then "-" else "") ++ toString (c.natAbs / 100) ++ "."
        ++ pad2 (c.natAbs % 100) := by
  simp [formatFixed2, h]

/-- Membership is preserved by ordered insertion. -/
lemma mem_insertOrd {le : α → α → Bool} {a b : α} {l : List α} :
    a ∈ insertOrd le b l ↔ a = b ∨ a ∈ l := by
  induction l with
  | nil => simp [insertOrd]
  | cons c l ih =>
    by_cases h : le b c = true
    · simp [insertOrd, h]
    · simp only [insertOrd, if_neg h, List.mem_cons, ih]
      tauto

/-- The enumeration order of a query result set is a permutation concern
only: membership is unchanged by sorting. -/
lemma mem_sortOrd {le : α → α → Bool} {a : α} {l : List α} :
    a ∈ sortOrd le l ↔ a ∈ l := by
  induction l with
  | nil => simp [sortOrd]
  | cons b l ih => simp [sortOrd, mem_insertOrd, ih]

/-- A fresh subcollection write only appends to the parent's item list. -/
lemma itemsOfInvoice_append (db : DB) (extra : List InvoiceItem) (id : String) :
    itemsOfInvoice { db with subItems := db.subItems ++ extra } id
      = itemsOfInvoice db id ++ extra.filter (fun it => it.invoiceId == id) := by
  simp [itemsOfInvoice, List.filter_append]

/-! ## C1 — `createInvoice` and the invoice totals -/

/-- The invoice draft of the C1 counterexample: the caller supplies
`subtotal = 999.99` together with a single item of quantity 2, rate 10 and
(inconsistent) amount 7. -/
def draftCx : InsertInvoice :=
  { userId := "u1", clientId := "c1", invoiceNumber := "INV-9", status := none
    currency := "KES", subtotal := 99999 / 100, taxRate := 10, taxAmount := 5
    total := 6, notes := none, paidAt := none }

/-- The single (inconsistent) line item of the C1 counterexample. -/
def itemCx : InsertInvoiceItem := { description := "A", quantity := 2, rate := 10, amount := 7 }

/-- State after `createInvoice(draftCx, [itemCx])` on an empty store. -/
def dbCx : DB := createInvoice ⟨[], [], [], []⟩ draftCx [itemCx] 0 "i1"

/-- C1, counterexample: `createInvoice` performs no totals computation — at
the concrete input `draftCx`/`itemCx` it persists `subtotal = 999.99`
although the persisted item amounts sum to `7`, and persists the item amount
`7` although `quantity * rate = 20`; so the claim that `createInvoice`
computes `amount = quantity * rate` (when inconsistent) and
`subtotal = Σ amount` is false. -/
theorem C1_createInvoice_counterexample :
    (getInvoiceDoc dbCx "i1").map Invoice.subtotal = some (99999 / 100) ∧
    ((itemsOfInvoice dbCx "i1").map InvoiceItem.amount).sum = 7 ∧
    (itemsOfInvoice dbCx "i1").map (fun it => it.quantity * it.rate) = [20] ∧
    (99999 / 100 : ℚ) ≠ 7 ∧ (7 : ℚ) ≠ 20 := by
  refine ⟨?_, ?_, ?_, by norm_num, by norm_num⟩ <;>
    (simp [dbCx, draftCx, itemCx, createInvoice, createInvoiceInvoiceWrite,
      mkInvoiceDoc, attachItem, getInvoiceDoc, itemsOfInvoice]; try norm_num)

/-- The items of the specified scenario as rows of the create-invoice form
(`updateItem` keeps `amount = quantity * rate`). -/
def scenarioItems : List FormItem :=
  [ { description := "A", quantity := 2, rate := 10, amount := 20 }
  , { description := "B", quantity := 1, rate := 5, amount := 5 } ]

/-- The payload the form submits for the scenario (taxRate "10"). -/
def scenarioSubmit : InsertInvoice × List InsertInvoiceItem :=
  submitInvoiceDraft "u1" "c1" "INV-1" "KES" 10 scenarioItems

/-- The store after the server persists the scenario submission. -/
def scenarioDB : DB :=
  createInvoice ⟨[⟨"c1", "u1", "Acme", "acme@example.com", 0⟩], [], [], []⟩
    scenarioSubmit.1 scenarioSubmit.2 0 "i1"

/-- C1, amended: `createInvoice` persists the caller-supplied
`subtotal`/`taxAmount`/`total` verbatim and appends the supplied items
unchanged to the invoice's subcollection; the totals arithmetic
(`amount = quantity * rate`, `subtotal = Σ amount`,
`taxAmount = subtotal * taxRate / 100`, `total = subtotal + taxAmount`,
rounded to 2 fractional digits) is performed by the create-invoice form
before submission.  For the scenario items `[{qty 2, rate 10}, {qty 1,
rate 5}]` with tax rate `10` the submitted — and hence persisted — values
are subtotal `25.00`, taxAmount `2.50`, total `27.50`. -/
theorem C1_totals_passthrough_and_scenario :
    (∀ (db : DB) (draft : InsertInvoice) (items : List InsertInvoiceItem)
        (now : Nat) (newId : String),
      (getInvoiceDoc (createInvoice db draft items now newId) newId).map
          Invoice.subtotal = some draft.subtotal ∧
      (getInvoiceDoc (createInvoice db draft items now newId) newId).map
          Invoice.taxAmount = some draft.taxAmount ∧
      (getInvoiceDoc (createInvoice db draft items now newId) newId).map
          Invoice.total = some draft.total ∧
      itemsOfInvoice (createInvoice db draft items now newId) newId
        = itemsOfInvoice db newId ++ items.map (attachItem newId now)) ∧
    ((scenarioItems.map (fun it =>
        it.amount = calculateItemAmount it.quantity it.rate)).foldr And True) ∧
    scenarioSubmit.1.subtotal = 25 ∧
    scenarioSubmit.1.taxAmount = 5 / 2 ∧
    scenarioSubmit.1.total = 55 / 2 ∧
    formatFixed2 scenarioSubmit.1.subtotal = "25.00" ∧
    formatFixed2 scenarioSubmit.1.taxAmount = "2.50" ∧
    formatFixed2 scenarioSubmit.1.total = "27.50" ∧
    (getInvoiceDoc scenarioDB "i1").map Invoice.subtotal = some 25 ∧
    (getInvoiceDoc scenarioDB "i1").map Invoice.taxAmount = some (5 / 2) ∧
    (getInvoiceDoc scenarioDB "i1").map Invoice.total = some (55 / 2) := by
  constructor
  · intro db draft items now newId
    refine ⟨?_, ?_, ?_, ?_⟩
    · simp [createInvoice, createInvoiceInvoiceWrite, getInvoiceDoc, mkInvoiceDoc]
    · simp [createInvoice, createInvoiceInvoiceWrite, getInvoiceDoc, mkInvoiceDoc]
    · simp [createInvoice, createInvoiceInvoiceWrite, getInvoiceDoc, mkInvoiceDoc]
    · show itemsOfInvoice { (createInvoiceInvoiceWrite db draft now newId) with
          subItems := _ ++ _ } newId = _
      rw [itemsOfInvoice_append]
      have : (items.map (attachItem newId now)).filter
          (fun it => it.invoiceId == newId) = items.map (attachItem newId now) := by
        rw [List.filter_eq_self]
        intro a ha
        rcases List.mem_map.mp ha with ⟨b, _, rfl⟩
        simp [attachItem]
      rw [this]; rfl
  refine ⟨?_, ?_, ?_, ?_, ?_, ?_, ?_, ?_, ?_, ?_⟩
  · simp [scenarioItems, calculateItemAmount]; norm_num
  · simp [scenarioSubmit, submitInvoiceDraft, calculateTotals, scenarioItems]
    norm_num [round2, round2cents]
  · simp [scenarioSubmit, submitInvoiceDraft, calculateTotals, scenarioItems]
    norm_num [round2, round2cents]
  · simp [scenarioSubmit, submitInvoiceDraft, calculateTotals, scenarioItems]
    norm_num [round2, round2cents]
  · have h25 : scenarioSubmit.1.subtotal = 25 := by
      simp [scenarioSubmit, submitInvoiceDraft, calculateTotals, scenarioItems]
      norm_num [round2, round2cents]
    rw [h25, formatFixed2_eq _ 2500 (by norm_num [round2cents])]; rfl
  · have h : scenarioSubmit.1.taxAmount = 5 / 2 := by
      simp [scenarioSubmit, submitInvoiceDraft, calculateTotals, scenarioItems]
      norm_num [round2, round2cents]
    rw [h, formatFixed2_eq _ 250 (by norm_num [round2cents])]; rfl
  · have h : scenarioSubmit.1.total = 55 / 2 := by
      simp [scenarioSubmit, submitInvoiceDraft, calculateTotals, scenarioItems]
      norm_num [round2, round2cents]
    rw [h, formatFixed2_eq _ 2750 (by norm_num [round2cents])]; rfl
  · simp [scenarioDB, scenarioSubmit, submitInvoiceDraft, calculateTotals,
      scenarioItems, createInvoice, createInvoiceInvoiceWrite, getInvoiceDoc,
      mkInvoiceDoc]
    norm_num [round2, round2cents]
  · simp [scenarioDB, scenarioSubmit, submitInvoiceDraft, calculateTotals,
      scenarioItems, createInvoice, createInvoiceInvoiceWrite, getInvoiceDoc,
      mkInvoiceDoc]
    norm_num [round2, round2cents]
  · simp [scenarioDB, scenarioSubmit, submitInvoiceDraft, calculateTotals,
      scenarioItems, createInvoice, createInvoiceInvoiceWrite, getInvoiceDoc,
      mkInvoiceDoc]
    norm_num [round2, round2cents]

/-! ## C2 — `replaceInvoiceItems` and the parent totals -/

/-- A consistent invoice (totals matching its two items) for the C2 run. -/
def dbR0 : DB :=
  { clients := [⟨"c2", "u2", "Beta", "beta@example.com", 0⟩]
    invoices := [{ id := "i2", userId := "u2", clientId := "c2"
                   invoiceNumber := "INV-2", status := "pending", currency := "KES"
                   subtotal := 25, taxRate := 10, taxAmount := 5 / 2, total := 55 / 2
                   notes := none, paidAt := none, createdAt := 0, updatedAt := 0 }]
    subItems := [⟨"i2", "A", 2, 10, 20, 0⟩, ⟨"i2", "B", 1, 5, 5, 0⟩]
    topItems := [] }

/-- The replacement item set: one item of amount 40. -/
def newItemR : InsertInvoiceItem := { description := "C", quantity := 4, rate := 10, amount := 40 }

/-- State after `replaceInvoiceItems("i2", [newItemR])`. -/
def dbR1 : DB := replaceInvoiceItems dbR0 "i2" [newItemR] 7

/-- C2: at the concrete run `dbR1`, `replaceInvoiceItems` followed by
`getInvoice` does return exactly the new item set (old items gone), but the
parent invoice still carries the totals of the old set
(`subtotal 25 / taxAmount 2.50 / total 27.50` although the new items sum to
`40`): the code performs no recomputation of the parent totals. -/
theorem C2_replaceInvoiceItems_stale_totals :
    (getInvoice dbR1 "i2").map (fun d => d.items.map InvoiceItem.amount) = some [40] ∧
    (getInvoice dbR1 "i2").map (fun d => d.invoice.subtotal) = some 25 ∧
    (getInvoice dbR1 "i2").map (fun d => d.invoice.taxAmount) = some (5 / 2) ∧
    (getInvoice dbR1 "i2").map (fun d => d.invoice.total) = some (55 / 2) ∧
    (25 : ℚ) ≠ 40 := by
  refine ⟨?_, ?_, ?_, ?_, by norm_num⟩ <;>
    simp [dbR1, dbR0, newItemR, replaceInvoiceItems, attachItem, getInvoice,
      getInvoiceDoc, getClient, itemsOfInvoice]

/-! ## C3 — atomicity of `createInvoice` -/

/-- The draft of the C3 failure run. -/
def draftF : InsertInvoice :=
  { userId := "u3", clientId := "c3", invoiceNumber := "INV-3", status := none
    currency := "KES", subtotal := 10, taxRate := 0, taxAmount := 0, total := 10
    notes := none, paidAt := none }

/-- The store when the item batch commit of `createInvoice` rejects: the
invoice document was already written by the earlier `await invoiceRef.set`,
and the code has no catch and no compensating delete, so this is exactly the
state the surfaced error leaves behind. -/
def dbF : DB := createInvoiceInvoiceWrite ⟨[], [], [], []⟩ draftF 0 "i3"

/-- C3: when the item-insertion step of `createInvoice` fails, the partially
written invoice remains observable — `createInvoice` writes the invoice
document first, commits the items second, and performs no rollback, so at
the concrete failure state `dbF` the invoice `"i3"` is still found (an
orphan with no items). -/
theorem C3_orphan_invoice_on_item_failure :
    getInvoiceDoc dbF "i3" = some (mkInvoiceDoc draftF 0 "i3") ∧
    getInvoiceDoc dbF "i3" ≠ none ∧
    itemsOfInvoice dbF "i3" = [] := by
  refine ⟨?_, ?_, ?_⟩ <;>
    simp [dbF, draftF, createInvoiceInvoiceWrite, getInvoiceDoc, mkInvoiceDoc,
      itemsOfInvoice]

/-! ## C4 — `deleteClient` cascade -/

/-- The client of the C4 run. -/
def clD : Client := ⟨"c4", "u4", "Delta", "delta@example.com", 0⟩

/-- An invoice of client `clD`. -/
def invD : Invoice :=
  { id := "i4", userId := "u4", clientId := "c4", invoiceNumber := "INV-4"
    status := "pending", currency := "KES", subtotal := 10, taxRate := 0
    taxAmount := 0, total := 10, notes := none, paidAt := none
    createdAt := 0, updatedAt := 0 }

/-- The single item of invoice `invD`. -/
def itemD : InvoiceItem := ⟨"i4", "A", 1, 10, 10, 0⟩

/-- Store holding `clD`, its invoice and the invoice's item. -/
def dbD0 : DB := ⟨[clD], [invD], [itemD], []⟩

/-- State after `deleteClient("c4")`. -/
def dbD1 : DB := deleteClient dbD0 "c4"

/-- C4: `deleteClient` deletes only the client document — after deleting
`"c4"`, the client's invoice `"i4"` and its item are still stored, and the
invoice API still serves the invoice (now with a null client) to its owner
instead of returning not-found: no cascade is performed. -/
theorem C4_deleteClient_no_cascade :
    getClient dbD1 "c4" = none ∧
    getInvoiceDoc dbD1 "i4" = some invD ∧
    getInvoice dbD1 "i4" = some ⟨invD, none, [itemD]⟩ ∧
    getInvoiceByIdRoute dbD1 "u4" "i4" = .ok ⟨invD, none, [itemD]⟩ := by
  refine ⟨?_, ?_, ?_, ?_⟩ <;>
    simp [dbD1, dbD0, deleteClient, getClient, getInvoiceDoc, getInvoice,
      itemsOfInvoice, getInvoiceByIdRoute, clD, invD, itemD]

/-! ## C8 — `deleteInvoice` and the item subcollection -/

/-- Store produced by `createInvoice` for the C8 run: the invoice `"i8"`
with one line item, written — as the code writes it — into the subcollection
`invoices/i8/items`. -/
def dbE0 : DB :=
  createInvoice ⟨[⟨"c8", "u8", "Echo", "echo@example.com", 0⟩], [], [], []⟩
    { userId := "u8", clientId := "c8", invoiceNumber := "INV-8", status := none
      currency := "KES", subtotal := 10, taxRate := 0, taxAmount := 0, total := 10
      notes := none, paidAt := none }
    [{ description := "A", quantity := 1, rate := 10, amount := 10 }] 0 "i8"

/-- State after `deleteInvoice("i8")`. -/
def dbE1 : DB := deleteInvoice dbE0 "i8"

/-- C8: `deleteInvoice` deletes the invoice document and queries the
top-level `invoiceItems` collection — but `createInvoice` (and
`replaceInvoiceItems`) store the items in the subcollection
`invoices/{id}/items`, which `deleteInvoice` never touches.  After
`deleteInvoice("i8")` the invoice is gone, yet its item written at creation
is still observable in storage; in general the subcollection store is left
unchanged by every `deleteInvoice`. -/
theorem C8_deleteInvoice_leaves_subcollection_items :
    getInvoiceDoc dbE1 "i8" = none ∧
    itemsOfInvoice dbE1 "i8"
      = [attachItem "i8" 0 { description := "A", quantity := 1, rate := 10, amount := 10 }] ∧
    itemsOfInvoice dbE1 "i8" ≠ [] ∧
    (∀ (db : DB) (id : String), (deleteInvoice db id).subItems = db.subItems) := by
  refine ⟨?_, ?_, ?_, fun db id => rfl⟩ <;>
    simp [dbE1, dbE0, deleteInvoice, createInvoice, createInvoiceInvoiceWrite,
      mkInvoiceDoc, attachItem, getInvoiceDoc, itemsOfInvoice]

/-! ## C5 — `updateInvoiceStatus(id, "paid")` and `paidAt` -/

/-- After updating every document matching an id, looking the id up yields
the updated document (given that the lookup succeeded before). -/
lemma find?_map_update (l : List Invoice) (id : String) (inv inv' : Invoice)
    (h : l.find? (fun i => i.id == id) = some inv) (hid : (inv'.id == id) = true) :
    (l.map (fun i => if i.id == id then inv' else i)).find?
      (fun i => i.id == id) = some inv' := by
  induction l with
  | nil => simp at h
  | cons a l ih =>
    rw [List.map_cons]
    by_cases ha : (a.id == id) = true
    · rw [if_pos ha]
      simp only [List.find?, hid]
    · have haf : (a.id == id) = false := by simpa using ha
      rw [if_neg ha]
      simp only [List.find?, haf] at h ⊢
      exact ih h

/-- Re-reading the updated document after `writeInvoiceDoc`. -/
lemma getInvoiceDoc_writeInvoiceDoc (db : DB) (id : String) (inv inv' : Invoice)
    (h : getInvoiceDoc db id = some inv) (hid : (inv'.id == id) = true) :
    getInvoiceDoc (writeInvoiceDoc db id inv') id = some inv' := by
  have := find?_map_update db.invoices id inv inv'
    (by simpa [getInvoiceDoc] using h) hid
  simpa [getInvoiceDoc, writeInvoiceDoc] using this

/-- An already-paid invoice: `paidAt` was stamped at time 5. -/
def invP2 : Invoice :=
  { id := "i5", userId := "u5", clientId := "c5", invoiceNumber := "INV-5"
    status := "paid", currency := "KES", subtotal := 10, taxRate := 0
    taxAmount := 0, total := 10, notes := none, paidAt := some 5
    createdAt := 0, updatedAt := 0 }

/-- Store holding the already-paid invoice `invP2`. -/
def dbP2 : DB := ⟨[], [invP2], [], []⟩

/-- C5, counterexample: calling `updateInvoiceStatus("i5", "paid")` again at
time 9 on the invoice whose `paidAt` is already `some 5` **changes** `paidAt`
to `some 9` — the stamp is not idempotent once set, because the code assigns
`paidAt = now` unconditionally whenever the new status is "paid". -/
theorem C5_restamp_counterexample :
    (updateInvoiceStatus dbP2 "i5" "paid" 9).toOption.map (fun p => p.2.paidAt)
      = some (some 9) ∧
    some (9 : Nat) ≠ some 5 := by
  refine ⟨?_, by simp⟩
  rfl

/-- C5, amended: `updateInvoiceStatus(id, "paid")` always succeeds on an
existing invoice and always sets `paidAt := now` (the current time): in
particular `paidAt` is non-null afterwards — so the first claim half holds —
but a repeated call overwrites the earlier stamp with the new current time
instead of leaving it unchanged. -/
theorem C5_paid_always_restamps (db : DB) (id : String) (now : Nat) (inv : Invoice)
    (h : getInvoiceDoc db id = some inv) :
    updateInvoiceStatus db id "paid" now
      = .ok (writeInvoiceDoc db id (applyStatusUpdate inv "paid" now),
          applyStatusUpdate inv "paid" now) ∧
    (applyStatusUpdate inv "paid" now).paidAt = some now := by
  have hfind : db.invoices.find? (fun i => i.id == id) = some inv := by
    simpa [getInvoiceDoc] using h
  have hid : (inv.id == id) = true := by
    have := List.find?_some hfind
    simpa using this
  have hid' : ((applyStatusUpdate inv "paid" now).id == id) = true := by
    simpa [applyStatusUpdate] using hid
  have hre := getInvoiceDoc_writeInvoiceDoc db id inv
    (applyStatusUpdate inv "paid" now) h hid'
  refine ⟨?_, by simp [applyStatusUpdate]⟩
  simp only [updateInvoiceStatus]
  rw [if_pos (show ("paid" : String) ∈ allowedStatuses by simp [allowedStatuses])]
  simp only [h, hre]

/-- An invoice whose `paidAt` is still null, for the C5 witness. -/
def invP1 : Invoice :=
  { id := "i5", userId := "u5", clientId := "c5", invoiceNumber := "INV-5"
    status := "pending", currency := "KES", subtotal := 10, taxRate := 0
    taxAmount := 0, total := 10, notes := none, paidAt := none
    createdAt := 0, updatedAt := 0 }

/-- Store holding the not-yet-paid invoice `invP1`. -/
def dbP1 : DB := ⟨[], [invP1], [], []⟩

/-- C5, witness: marking the concrete pending invoice `invP1` (paidAt null)
as paid at time 9 stamps `paidAt = some 9`, a non-null timestamp. -/
theorem C5_paid_always_restamps_witness :
    updateInvoiceStatus dbP1 "i5" "paid" 9
      = .ok (writeInvoiceDoc dbP1 "i5" (applyStatusUpdate invP1 "paid" 9),
          applyStatusUpdate invP1 "paid" 9) ∧
    (applyStatusUpdate invP1 "paid" 9).paidAt = some 9 :=
  C5_paid_always_restamps dbP1 "i5" 9 invP1 (by simp [dbP1, invP1, getInvoiceDoc])

/-! ## C9 — tenant isolation of `GET /api/invoices/:id` -/

/-- C9: when the resolved tenant differs from the invoice's owner, the
`GET /api/invoices/:id` handler answers 404 "Invoice not found" — the same
response it gives for an id that does not exist at all; it never returns the
invoice data and has no distinct forbidden response. -/
theorem C9_tenant_isolation (db : DB) (tA tB id : String) (inv : Invoice)
    (hAB : tA ≠ tB) (h : getInvoiceDoc db id = some inv) (hown : inv.userId = tA) :
    getInvoiceByIdRoute db tB id = .notFound "Invoice not found" ∧
    ∀ id2, getInvoiceDoc db id2 = none →
      getInvoiceByIdRoute db tB id2 = .notFound "Invoice not found" := by
  constructor
  · have hne : (inv.userId == tB) = false := by
      rw [hown]; exact beq_eq_false_iff_ne.mpr hAB
    simp [getInvoiceByIdRoute, getInvoice, h, hne]
  · intro id2 h2
    simp [getInvoiceByIdRoute, getInvoice, h2]

/-- An invoice of tenant "A" for the C9 witness. -/
def invT : Invoice :=
  { id := "i9", userId := "A", clientId := "c9", invoiceNumber := "INV-9A"
    status := "pending", currency := "KES", subtotal := 10, taxRate := 0
    taxAmount := 0, total := 10, notes := none, paidAt := none
    createdAt := 0, updatedAt := 0 }

/-- Store holding tenant A's invoice `invT`. -/
def dbT9 : DB := ⟨[], [invT], [], []⟩

/-- C9, witness: tenant "B" requesting tenant "A"'s invoice `"i9"` receives
404 "Invoice not found", as does any request for the nonexistent id "nope". -/
theorem C9_tenant_isolation_witness :
    getInvoiceByIdRoute dbT9 "B" "i9" = .notFound "Invoice not found" ∧
    getInvoiceByIdRoute dbT9 "B" "nope" = .notFound "Invoice not found" := by
  have h := C9_tenant_isolation dbT9 "A" "B" "i9" invT (by simp)
    (by simp [dbT9, invT, getInvoiceDoc]) rfl
  exact ⟨h.1, h.2 "nope" (by simp [dbT9, invT, getInvoiceDoc])⟩

/-! ## C6 — shape of the `getInvoicesByUserId` listing -/

/-- The tenant's client for the C6 run. -/
def clS : Client := ⟨"c6", "u6", "Zeta", "zeta@example.com", 0⟩

/-- Invoice with document id "a", created at time 5, holding one item. -/
def invS1 : Invoice :=
  { id := "a", userId := "u6", clientId := "c6", invoiceNumber := "INV-A"
    status := "pending", currency := "KES", subtotal := 10, taxRate := 0
    taxAmount := 0, total := 10, notes := none, paidAt := none
    createdAt := 5, updatedAt := 5 }

/-- Invoice with document id "b", created later, at time 10. -/
def invS2 : Invoice :=
  { id := "b", userId := "u6", clientId := "c6", invoiceNumber := "INV-B"
    status := "paid", currency := "KES", subtotal := 20, taxRate := 0
    taxAmount := 0, total := 20, notes := none, paidAt := some 10
    createdAt := 10, updatedAt := 10 }

/-- The single stored line item of invoice "a". -/
def itemS : InvoiceItem := ⟨"a", "X", 1, 10, 10, 5⟩

/-- Store with the two invoices and the item of "a". -/
def dbS : DB := ⟨[clS], [invS2, invS1], [itemS], []⟩

/-- C6, counterexample: at the concrete store `dbS` the listing returns the
invoices in document-id order ("a" before "b", i.e. creation times [5, 10] —
**not** creation-time descending, which would be [10, 5]), and every entry
carries an **empty** item list although invoice "a" has a stored item; so
the claim's "full Item list, sorted by invoice creation time descending" is
false. -/
theorem C6_list_counterexample :
    (getInvoicesByUserId dbS "u6" none).map (fun d => d.invoice.id) = ["a", "b"] ∧
    (getInvoicesByUserId dbS "u6" none).map (fun d => d.invoice.createdAt) = [5, 10] ∧
    (getInvoicesByUserId dbS "u6" none).map (fun d => d.items)
      = [([] : List InvoiceItem), []] ∧
    itemsOfInvoice dbS "a" = [itemS] ∧
    ([] : List InvoiceItem) ≠ [itemS] ∧
    (5 : Nat) < 10 := by
  have hba : strLe "b" "a" = false := by decide
  refine ⟨?_, ?_, ?_, ?_, by simp, by norm_num⟩ <;>
    simp [getInvoicesByUserId, dbS, sortOrd, insertOrd, idOrder, hba,
      statusFilterMatches, getClient, itemsOfInvoice, invS1, invS2, clS, itemS]

/-- C6, amended: `getInvoicesByUserId` returns exactly the tenant's invoices
that match the status filter when one is given (so filtering on "paid"
excludes every pending and overdue invoice of the tenant, and the absence of
a filter returns them all), each joined with its client lookup result
(null when the client document is missing) and an **empty** item list; the
enumeration follows the backend's default document-id order, with no
creation-time sorting guarantee. -/
theorem C6_list_membership (db : DB) (u : String) (f : Option String)
    (d : InvoiceWithDetails) :
    d ∈ getInvoicesByUserId db u f ↔
      ∃ i, i ∈ db.invoices ∧ i.userId = u ∧ statusFilterMatches f i = true ∧
        d = ⟨i, getClient db i.clientId, []⟩ := by
  simp only [getInvoicesByUserId, List.mem_map, mem_sortOrd, List.mem_filter,
    Bool.and_eq_true, beq_iff_eq]
  constructor
  · rintro ⟨i, ⟨hmem, hu, hs⟩, rfl⟩
    exact ⟨i, hmem, hu, hs, rfl⟩
  · rintro ⟨i, hmem, hu, hs, rfl⟩
    exact ⟨i, ⟨hmem, hu, hs⟩, rfl⟩

/-- C6, witness: by the membership characterisation, the pending invoice
`invS1` appears (joined with its client and an empty item list) in the
status-"pending" listing of tenant "u6" — and a "paid" filter would exclude
it, since `statusFilterMatches` demands equality with the filtered status. -/
theorem C6_list_membership_witness :
    (⟨invS1, some clS, []⟩ : InvoiceWithDetails)
      ∈ getInvoicesByUserId dbS "u6" (some "pending") :=
  (C6_list_membership dbS "u6" (some "pending") ⟨invS1, some clS, []⟩).mpr
    ⟨invS1, by simp [dbS], rfl, by simp [statusFilterMatches, invS1],
      by simp [getClient, dbS, clS, invS1]⟩

/-! ## C7 — dashboard metrics -/

/-- Each loop iteration increments the invoice count by one. -/
lemma dashStep_totalInvoices (s e : Nat) (acc : DashAcc) (inv : Invoice) :
    (dashStep s e acc inv).totalInvoices = acc.totalInvoices + 1 := by
  simp only [dashStep]
  split_ifs <;> rfl

/-- Each loop iteration adds a pending invoice's total to the pending
amount and leaves it unchanged otherwise. -/
lemma dashStep_pendingAmount (s e : Nat) (acc : DashAcc) (inv : Invoice) :
    (dashStep s e acc inv).pendingAmount =
      if inv.status == "paid" then acc.pendingAmount
      else if inv.status == "pending" then acc.pendingAmount + inv.total
      else acc.pendingAmount := by
  simp only [dashStep]
  split_ifs <;> rfl

/-- Each loop iteration adds a paid invoice's total to the revenue and
leaves it unchanged otherwise. -/
lemma dashStep_totalRevenue (s e : Nat) (acc : DashAcc) (inv : Invoice) :
    (dashStep s e acc inv).totalRevenue =
      if inv.status == "paid" then acc.totalRevenue + inv.total
      else acc.totalRevenue := by
  simp only [dashStep]
  split_ifs <;> rfl

/-- The loop counts every processed invoice. -/
lemma dashFold_totalInvoices (s e : Nat) (l : List Invoice) (acc : DashAcc) :
    (l.foldl (dashStep s e) acc).totalInvoices = acc.totalInvoices + l.length := by
  induction l generalizing acc with
  | nil => simp
  | cons a l ih =>
    rw [List.foldl_cons, ih, dashStep_totalInvoices, List.length_cons]
    omega

/-- The loop sums exactly the pending invoices' totals. -/
lemma dashFold_pendingAmount (s e : Nat) (l : List Invoice) (acc : DashAcc) :
    (l.foldl (dashStep s e) acc).pendingAmount =
      acc.pendingAmount
        + ((l.filter (fun i => i.status == "pending")).map Invoice.total).sum := by
  induction l generalizing acc with
  | nil => simp
  | cons a l ih =>
    rw [List.foldl_cons, ih, dashStep_pendingAmount]
    by_cases hpd : (a.status == "paid") = true
    · have ha : a.status = "paid" := by simpa using hpd
      simp [List.filter_cons, ha]
    · by_cases hpg : (a.status == "pending") = true
      · have ha : a.status = "pending" := by simpa using hpg
        simp [List.filter_cons, ha]
        ring
      · simp [List.filter_cons, hpd, hpg]

/-- The loop sums exactly the paid invoices' totals. -/
lemma dashFold_totalRevenue (s e : Nat) (l : List Invoice) (acc : DashAcc) :
    (l.foldl (dashStep s e) acc).totalRevenue =
      acc.totalRevenue
        + ((l.filter (fun i => i.status == "paid")).map Invoice.total).sum := by
  induction l generalizing acc with
  | nil => simp
  | cons a l ih =>
    rw [List.foldl_cons, ih, dashStep_totalRevenue]
    by_cases hpd : (a.status == "paid") = true
    · have ha : a.status = "paid" := by simpa using hpd
      simp [List.filter_cons, ha]
      ring
    · simp [List.filter_cons, hpd]

/-- The tenant's pending invoice with total 100 of the C7 scenario. -/
def invM1 : Invoice :=
  { id := "m1", userId := "u7", clientId := "c7", invoiceNumber := "INV-M1"
    status := "pending", currency := "KES", subtotal := 100, taxRate := 0
    taxAmount := 0, total := 100, notes := none, paidAt := none
    createdAt := 0, updatedAt := 0 }

/-- The tenant's paid invoice with total 50 of the C7 scenario. -/
def invM2 : Invoice :=
  { id := "m2", userId := "u7", clientId := "c7", invoiceNumber := "INV-M2"
    status := "paid", currency := "KES", subtotal := 50, taxRate := 0
    taxAmount := 0, total := 50, notes := none, paidAt := some 3
    createdAt := 0, updatedAt := 0 }

/-- Store of the C7 scenario: one pending and one paid invoice of "u7". -/
def dbM : DB := ⟨[], [invM1, invM2], [], []⟩

/-- C7: for every tenant, `getDashboardMetrics` returns
`totalInvoices` = number of the tenant's invoices, `pendingAmount` = sum of
`total` over the tenant's pending invoices rendered with `toFixed(2)`, and
`totalRevenue` = the same sum over the paid invoices (overdue invoices enter
neither sum, and an empty pending set yields "0.00"); in the concrete
scenario with one pending invoice of total 100 and one paid invoice of total
50 this gives `pendingAmount "100.00"`, `totalRevenue "50.00"`,
`totalInvoices 2`. -/
theorem C7_dashboard_metrics :
    (∀ (db : DB) (u : String) (s e : Nat),
      (getDashboardMetrics db u s e).totalInvoices
        = (db.invoices.filter (fun i => i.userId == u)).length ∧
      (getDashboardMetrics db u s e).pendingAmount
        = formatFixed2 ((((db.invoices.filter (fun i => i.userId == u)).filter
            (fun i => i.status == "pending")).map Invoice.total).sum) ∧
      (getDashboardMetrics db u s e).totalRevenue
        = formatFixed2 ((((db.invoices.filter (fun i => i.userId == u)).filter
            (fun i => i.status == "paid")).map Invoice.total).sum)) ∧
    (getDashboardMetrics dbM "u7" 100 200).pendingAmount = "100.00" ∧
    (getDashboardMetrics dbM "u7" 100 200).totalRevenue = "50.00" ∧
    (getDashboardMetrics dbM "u7" 100 200).totalInvoices = 2 ∧
    (getDashboardMetrics (DB.mk [] [] [] []) "u7" 100 200).pendingAmount = "0.00" := by
  have H : ∀ (db : DB) (u : String) (s e : Nat),
      (getDashboardMetrics db u s e).totalInvoices
        = (db.invoices.filter (fun i => i.userId == u)).length ∧
      (getDashboardMetrics db u s e).pendingAmount
        = formatFixed2 ((((db.invoices.filter (fun i => i.userId == u)).filter
            (fun i => i.status == "pending")).map Invoice.total).sum) ∧
      (getDashboardMetrics db u s e).totalRevenue
        = formatFixed2 ((((db.invoices.filter (fun i => i.userId == u)).filter
            (fun i => i.status == "paid")).map Invoice.total).sum) := by
    intro db u s e
    refine ⟨?_, ?_, ?_⟩
    · simp [getDashboardMetrics, dashFold_totalInvoices]
    · simp [getDashboardMetrics, dashFold_pendingAmount]
    · simp [getDashboardMetrics, dashFold_totalRevenue]
  refine ⟨H, ?_, ?_, ?_, ?_⟩
  · rw [(H dbM "u7" 100 200).2.1]
    have hv : ((((dbM.invoices.filter (fun i => i.userId == "u7")).filter
        (fun i => i.status == "pending")).map Invoice.total).sum) = 100 := by
      simp [dbM, invM1, invM2]
    rw [hv, formatFixed2_eq _ 10000 (by norm_num [round2cents])]
    rfl
  · rw [(H dbM "u7" 100 200).2.2]
    have hv : ((((dbM.invoices.filter (fun i => i.userId == "u7")).filter
        (fun i => i.status == "paid")).map Invoice.total).sum) = 50 := by
      simp [dbM, invM1, invM2]
    rw [hv, formatFixed2_eq _ 5000 (by norm_num [round2cents])]
    rfl
  · rw [(H dbM "u7" 100 200).1]
    simp [dbM, invM1, invM2]
  · rw [(H (DB.mk [] [] [] []) "u7" 100 200).2.1]
    rw [show ((((DB.mk [] [] [] []).invoices.filter
        (fun i => i.userId == "u7")).filter
        (fun i => i.status == "pending")).map Invoice.total).sum = 0 by simp]
    rw [formatFixed2_eq _ 0 (by norm_num [round2cents])]
    rfl

/-! ## C10 — `getRecentInvoices` drops invoices with a missing client -/

/-- The only existing client of the C10 run. -/
def clN : Client := ⟨"cN", "uN", "Nu", "nu@example.com", 0⟩

/-- Recent invoice of "uN" whose client `clN` exists. -/
def invN1 : Invoice :=
  { id := "n1", userId := "uN", clientId := "cN", invoiceNumber := "INV-N1"
    status := "pending", currency := "KES", subtotal := 10, taxRate := 0
    taxAmount := 0, total := 10, notes := none, paidAt := none
    createdAt := 10, updatedAt := 10 }

/-- The most recent invoice of "uN", referencing a client document that does
not exist. -/
def invN2 : Invoice :=
  { id := "n2", userId := "uN", clientId := "ghost", invoiceNumber := "INV-N2"
    status := "pending", currency := "KES", subtotal := 20, taxRate := 0
    taxAmount := 0, total := 20, notes := none, paidAt := none
    createdAt := 20, updatedAt := 20 }

/-- Store of the C10 run: two invoices of "uN", one with a dangling client
reference. -/
def dbN : DB := ⟨[clN], [invN1, invN2], [], []⟩

/-- C10: an entry is in the `getRecentInvoices` feed exactly when it is one
of the `limit` most recent invoices of the tenant whose referenced client
document exists, joined with that client and its `invoiceItems` documents —
every returned invoice therefore has an existing client attached, and any of
the `limit` most recent invoices whose client is missing is silently
omitted.  Concretely, tenant "uN" has 2 invoices, yet
`getRecentInvoices("uN", 2)` yields only 1 entry (the most recent invoice
references a missing client) and no error. -/
theorem C10_recent_invoices (db : DB) (u : String) (n : Nat) (d : RecentInvoice) :
    (d ∈ getRecentInvoices db u n ↔
      ∃ i c, i ∈ recentCandidates db u n ∧ getClient db i.clientId = some c ∧
        d = ⟨i, c, topItemsOfInvoice db i.id⟩) ∧
    (getRecentInvoices dbN "uN" 2).map (fun r => r.invoice.id) = ["n1"] ∧
    (getRecentInvoices dbN "uN" 2).length = 1 ∧
    (dbN.invoices.filter (fun i => i.userId == "uN")).length = 2 ∧
    (1 : Nat) < 2 := by
  refine ⟨?_, ?_, ?_, by simp [dbN, invN1, invN2], by norm_num⟩
  · simp only [getRecentInvoices, List.mem_filterMap]
    constructor
    · rintro ⟨i, hmem, hmap⟩
      obtain ⟨c, hc, rfl⟩ := Option.map_eq_some'.mp hmap
      exact ⟨i, c, hmem, hc, rfl⟩
    · rintro ⟨i, c, hmem, hc, rfl⟩
      refine ⟨i, hmem, ?_⟩
      rw [hc]
      rfl
  · simp [getRecentInvoices, recentCandidates, dbN, sortOrd, insertOrd,
      createdDescOrder, getClient, topItemsOfInvoice, invN1, invN2, clN]
  · simp [getRecentInvoices, recentCandidates, dbN, sortOrd, insertOrd,
      createdDescOrder, getClient, topItemsOfInvoice, invN1, invN2, clN]

end SmartInvoice
